import Mathlib

/-!
Shallow embedding of the symphonia-decoder-libopus adapter (src/src/lib.rs).

The adapter wraps an external libopus decoder handle behind the symphonia
decoder interface.  External calls (opus Decoder new, opus decode,
opus reset_state) are modelled as explicit parameters holding the external
call's result, since the external library is not part of this repository.
Results of Rust functions that may call unwrap on an Err or None are
modelled with the Outcome type, whose panicked constructor marks an abort.
Samples (i16 in the source) are modelled as Int: the adapter only copies
them, it never computes with them, so no overflow modelling is needed.
-/

/-- Error kinds reported by the external libopus library. -/
inductive OpusError where
  | badArg
  | invalidPacket
  | allocFail
  | internalError
deriving DecidableEq

/-- Channel configuration accepted by the external libopus library
(opus Channels, Mono or Stereo). -/
inductive OpusChannels where
  | mono
  | stereo
deriving DecidableEq

/-- The external decoder handle (opus Decoder), recording the arguments it
was created with; its internal prediction state is not observable here. -/
structure OpusDecoder where
  fs : Nat
  ch : OpusChannels
deriving DecidableEq

/-- The symphonia error kinds the adapter uses (symphonia errors Error).
Only the Unsupported variant is produced by this adapter. -/
inductive SymphoniaError where
  | Unsupported (msg : String)
  | DecodeError (msg : String)
deriving DecidableEq

/-- Result of a Rust function that can also abort via unwrap on Err/None. -/
inductive Outcome (α : Type) where
  | ok : α → Outcome α
  | err : SymphoniaError → Outcome α
  | panicked : Outcome α
deriving DecidableEq

/-- symphonia CodecParameters restricted to the fields the adapter reads.
The channel layout (a bitflag set in symphonia) is abstracted to its
channel count, which is all the adapter ever extracts from it. -/
structure CodecParameters where
  sample_rate : Option Nat
  channels : Option Nat
deriving DecidableEq

/-- symphonia SignalSpec: sample rate plus channel layout (as its count). -/
structure SignalSpec where
  rate : Nat
  channels : Nat
deriving DecidableEq

/-- symphonia AudioBuffer over i16 samples: per-channel backing storage of
fixed capacity, with a logical length in frames.  The readable planes are
the first frames entries of each storage row. -/
structure AudioBuffer where
  spec : SignalSpec
  capacity : Nat
  frames : Nat
  storage : List (List Int)
deriving DecidableEq

/-- AudioBuffer new duration spec: zeroed storage, logical length zero. -/
def AudioBuffer.new (duration : Nat) (spec : SignalSpec) : AudioBuffer :=
  { spec := spec
    capacity := duration
    frames := 0
    storage := List.replicate spec.channels (List.replicate duration 0) }

/-- AudioBuffer clear: logical length reset to zero, storage retained. -/
def AudioBuffer.clear (b : AudioBuffer) : AudioBuffer :=
  { b with frames := 0 }

/-- AudioBuffer render_reserved: extend the logical length by the given
frame count (or to full capacity when none); the source asserts the new
length fits in the capacity, modelled as the none result. -/
def AudioBuffer.render_reserved (b : AudioBuffer) (n : Option Nat) :
    Option AudioBuffer :=
  let k := n.getD (b.capacity - b.frames)
  if b.frames + k ≤ b.capacity then some { b with frames := b.frames + k }
  else none

/-- The readable plane views: one list per channel, each of logical length
frames (truncated to the storage row when shorter, which construction
never produces). -/
def AudioBuffer.planes (b : AudioBuffer) : List (List Int) :=
  b.storage.map (fun p => p.take b.frames)

/-- symphonia AudioBufferRef; this adapter only ever wraps S16 buffers. -/
inductive AudioBufferRef where
  | S16 (buf : AudioBuffer)
deriving DecidableEq

/-- Frame count reported by a buffer reference. -/
def AudioBufferRef.frames : AudioBufferRef → Nat
  | .S16 b => b.frames

/-- Plane views of a buffer reference. -/
def AudioBufferRef.planes : AudioBufferRef → List (List Int)
  | .S16 b => b.planes

/-- Sample rate recorded in the signal spec of a buffer reference. -/
def AudioBufferRef.rate : AudioBufferRef → Nat
  | .S16 b => b.spec.rate

/-- symphonia FinalizeResult. -/
structure FinalizeResult where
  verify_ok : Option Bool
deriving DecidableEq

/-- The adapter state (struct SymphoniaDecoderLibOpus). -/
structure SymphoniaDecoderLibOpus where
  libopus_decoder : OpusDecoder
  libopus_output_buffer : List Int
  decoded_buffer : AudioBuffer
  params : CodecParameters
  channels : Nat
deriving DecidableEq

/-- The channel-count translation in try_new: 1 is Mono, 2 is Stereo,
anything else has no opus counterpart (the source returns Unsupported). -/
def translate_channels : Nat → Option OpusChannels
  | 1 => some OpusChannels.mono
  | 2 => some OpusChannels.stereo
  | _ => none

/-- The sample-rate argument try_new passes to the external constructor:
params.sample_rate.unwrap_or_default(), i.e. the stored rate or the
numeric type's default value 0 when absent. -/
def try_new_rate_arg (params : CodecParameters) : Nat :=
  params.sample_rate.getD 0

/-- try_new, parameterised by the external constructor (opus Decoder new).
Mirrors the source exactly: channels.unwrap() panics when the layout is
absent; counts other than 1 or 2 return Unsupported; the external
constructor's result is unwrapped, so its failure panics; on success the
scratch buffer is 5760*2 zeroed samples and the output buffer has
capacity 5760 frames with a signal spec of rate 48000. -/
def SymphoniaDecoderLibOpus.try_new (params : CodecParameters)
    (opusNew : Nat → OpusChannels → Except OpusError OpusDecoder) :
    Outcome SymphoniaDecoderLibOpus :=
  match params.channels with
  | none => .panicked
  | some cnt =>
    match translate_channels cnt with
    | none => .err (.Unsupported "unsupported channel count")
    | some ch =>
      match opusNew (try_new_rate_arg params) ch with
      | .error _ => .panicked
      | .ok dec =>
        .ok
          { libopus_decoder := dec
            libopus_output_buffer := List.replicate (5760 * 2) 0
            decoded_buffer :=
              AudioBuffer.new 5760 { rate := 48000, channels := cnt }
            params := params
            channels := cnt }

/-- last_decoded: wrap the current output buffer, read-only. -/
def SymphoniaDecoderLibOpus.last_decoded (st : SymphoniaDecoderLibOpus) :
    AudioBufferRef :=
  .S16 st.decoded_buffer

/-- codec_params: return the parameters stored at construction. -/
def SymphoniaDecoderLibOpus.codec_params (st : SymphoniaDecoderLibOpus) :
    CodecParameters :=
  st.params

/-- The deinterleaving loop of decode: walking the storage rows with a
running channel index ch, each row's first frames samples are overwritten
with scratch[s * channels + ch] and the rest of the row is untouched.
The written prefix has the plane view's length, min frames row-length
(equal to frames for every buffer the adapter builds). -/
def deinterleave (scratch : List Int) (channels frames : Nat) :
    Nat → List (List Int) → List (List Int)
  | _, [] => []
  | ch, p :: rest =>
    (((List.range (min frames p.length)).map
        (fun s => scratch.getD (s * channels + ch) 0))
      ++ p.drop (min frames p.length))
      :: deinterleave scratch channels frames (ch + 1) rest

/-- decode, parameterised by the external decode call's result: either an
error (the source unwraps it, hence panics) or the decoded frame count
together with the scratch buffer contents the external call wrote.  On
success the output buffer is cleared, re-reserved to the decoded count,
deinterleaved from the scratch buffer, and a reference to it returned. -/
def SymphoniaDecoderLibOpus.decode (st : SymphoniaDecoderLibOpus)
    (ext : Except OpusError (Nat × List Int)) :
    Outcome (SymphoniaDecoderLibOpus × AudioBufferRef) :=
  match ext with
  | .error _ => .panicked
  | .ok (decoded, written) =>
    let st1 := { st with libopus_output_buffer := written }
    match (st1.decoded_buffer.clear).render_reserved (some decoded) with
    | none => .panicked
    | some dbuf =>
      let filled :=
        deinterleave st1.libopus_output_buffer st1.channels dbuf.frames 0
          dbuf.storage
      let dbuf2 := { dbuf with storage := filled }
      let st2 := { st1 with decoded_buffer := dbuf2 }
      .ok (st2, st2.last_decoded)

/-- reset, parameterised by the external reset_state call's result, which
the source unwraps; the adapter's own fields are untouched either way. -/
def SymphoniaDecoderLibOpus.reset (st : SymphoniaDecoderLibOpus)
    (ext : Except OpusError Unit) : Outcome SymphoniaDecoderLibOpus :=
  match ext with
  | .error _ => .panicked
  | .ok _ => .ok st

/-- finalize: verification status is always None (unknown). -/
def SymphoniaDecoderLibOpus.finalize (_st : SymphoniaDecoderLibOpus) :
    FinalizeResult :=
  { verify_ok := none }

/-- The sample rates the external libopus library accepts at decoder
creation, per its documented API contract; any other value, including 0,
is rejected with a bad-argument error.  libopus defines no default rate. -/
def opus_supported_sample_rates : List Nat :=
  [8000, 12000, 16000, 24000, 48000]

/-- Model of the external constructor opus Decoder new following the
documented libopus contract on sample rates (used to instantiate the
external-call parameter in concrete witnesses). -/
def opus_Decoder_new (fs : Nat) (ch : OpusChannels) :
    Except OpusError OpusDecoder :=
  if fs ∈ opus_supported_sample_rates then .ok { fs := fs, ch := ch }
  else .error .badArg

/-- A concrete adapter state: the one try_new builds for stereo at rate
48000 with a successful external allocation. -/
def exampleState : SymphoniaDecoderLibOpus :=
  { libopus_decoder := { fs := 48000, ch := OpusChannels.stereo }
    libopus_output_buffer := List.replicate (5760 * 2) 0
    decoded_buffer := AudioBuffer.new 5760 { rate := 48000, channels := 2 }
    params := { sample_rate := some 48000, channels := some 2 }
    channels := 2 }

/-- A concrete adapter state: the one try_new builds for stereo when the
stream declares rate 24000 and the external allocation succeeds.  Note
the decoded buffer's spec still carries the hard-coded rate 48000. -/
def exampleState24 : SymphoniaDecoderLibOpus :=
  { libopus_decoder := { fs := 24000, ch := OpusChannels.stereo }
    libopus_output_buffer := List.replicate (5760 * 2) 0
    decoded_buffer := AudioBuffer.new 5760 { rate := 48000, channels := 2 }
    params := { sample_rate := some 24000, channels := some 2 }
    channels := 2 }

/-- The output buffer a successful decode of decoded frames produces, with
written the scratch-buffer contents the external call left behind. -/
def decode_success_buffer (st : SymphoniaDecoderLibOpus) (decoded : Nat)
    (written : List Int) : AudioBuffer :=
  { spec := st.decoded_buffer.spec
    capacity := st.decoded_buffer.capacity
    frames := decoded
    storage :=
      deinterleave written st.channels decoded 0 st.decoded_buffer.storage }

/-- The adapter state after a successful decode of decoded frames. -/
def decode_success_state (st : SymphoniaDecoderLibOpus) (decoded : Nat)
    (written : List Int) : SymphoniaDecoderLibOpus :=
  { st with
    libopus_output_buffer := written
    decoded_buffer := decode_success_buffer st decoded written }

/-! Helper lemmas. -/

/-- Clearing and then reserving n frames succeeds whenever n fits in the
capacity, and yields the same buffer with logical length n. -/
theorem clear_render_reserved (b : AudioBuffer) (n : Nat)
    (h : n ≤ b.capacity) :
    (b.clear).render_reserved (some n) = some { b with frames := n } := by
  simp [AudioBuffer.clear, AudioBuffer.render_reserved, h]

/-- translate_channels rejects every count other than 1 and 2. -/
theorem translate_channels_eq_none (c : Nat) (h1 : c ≠ 1) (h2 : c ≠ 2) :
    translate_channels c = none := by
  match c with
  | 0 => rfl
  | 1 => exact absurd rfl h1
  | 2 => exact absurd rfl h2
  | (n + 3) => rfl

/-- A successful try_new yields the state built from the allocated handle:
the channel count from the parameters, a zeroed scratch buffer, and a
fresh output buffer of capacity 5760 whose spec rate is 48000. -/
theorem try_new_ok_shape (params : CodecParameters)
    (opusNew : Nat → OpusChannels → Except OpusError OpusDecoder)
    (st : SymphoniaDecoderLibOpus)
    (h : SymphoniaDecoderLibOpus.try_new params opusNew = Outcome.ok st) :
    ∃ cnt, params.channels = some cnt
      ∧ st.decoded_buffer = AudioBuffer.new 5760 { rate := 48000, channels := cnt }
      ∧ st.channels = cnt
      ∧ st.params = params := by
  unfold SymphoniaDecoderLibOpus.try_new at h
  cases hc : params.channels with
  | none => rw [hc] at h; exact Outcome.noConfusion h
  | some cnt =>
    rw [hc] at h
    dsimp only at h
    cases ht : translate_channels cnt with
    | none => rw [ht] at h; exact Outcome.noConfusion h
    | some ch =>
      rw [ht] at h
      dsimp only at h
      cases he : opusNew (try_new_rate_arg params) ch with
      | error e => rw [he] at h; exact Outcome.noConfusion h
      | ok dec =>
        rw [he] at h
        dsimp only at h
        injection h with h1
        exact ⟨cnt, rfl, by rw [← h1], by rw [← h1], by rw [← h1]⟩

/-- A successful render_reserved changes nothing but the frame count. -/
theorem render_reserved_some_shape (b b' : AudioBuffer) (n : Option Nat)
    (h : b.render_reserved n = some b') :
    b'.spec = b.spec ∧ b'.capacity = b.capacity ∧ b'.storage = b.storage := by
  unfold AudioBuffer.render_reserved at h
  dsimp only at h
  split at h
  · injection h with h'
    rw [← h']
    exact ⟨rfl, rfl, rfl⟩
  · exact Option.noConfusion h

/-! Theorems for the claims. -/

/-- Claim C9: finalize always returns a verification result whose status
is unknown (verify_ok is none), for every adapter state, regardless of
how many decode calls preceded it. -/
theorem finalize_always_unknown (st : SymphoniaDecoderLibOpus) :
    (st.finalize).verify_ok = none := rfl

/-- Claim C2, counterexample: when the external decode call reports an
error (here, an invalid packet) on a freshly constructed stereo adapter,
decode panics — it does not return a decode error to the caller. -/
theorem decode_external_error_cex :
    exampleState.decode (Except.error OpusError.invalidPacket)
        = Outcome.panicked
      ∧ ∀ e, exampleState.decode (Except.error OpusError.invalidPacket)
        ≠ Outcome.err e :=
  ⟨rfl, fun _ h => Outcome.noConfusion h⟩

/-- Claim C2 (amended): whenever the external decode call reports
malformed or unsupported packet data, decode panics (the source unwraps
the external result); no decode error is returned to the caller. -/
theorem decode_external_error_panicks (st : SymphoniaDecoderLibOpus)
    (e : OpusError) :
    st.decode (Except.error e) = Outcome.panicked := rfl

/-- Claim C4, counterexample: when the external allocation fails during
construction with valid stereo parameters, try_new panics — it does not
return a construction error. -/
theorem try_new_alloc_failure_cex :
    SymphoniaDecoderLibOpus.try_new
        { sample_rate := some 48000, channels := some 2 }
        (fun _ _ => Except.error OpusError.allocFail)
      = Outcome.panicked
    ∧ ∀ e, SymphoniaDecoderLibOpus.try_new
        { sample_rate := some 48000, channels := some 2 }
        (fun _ _ => Except.error OpusError.allocFail)
      ≠ Outcome.err e :=
  ⟨rfl, fun _ h => Outcome.noConfusion h⟩

/-- Claim C4 (amended): whenever the channel count validates but the
external decoder allocation fails, try_new panics (the source unwraps
the allocation result) instead of returning a construction error. -/
theorem try_new_alloc_failure_panicks (params : CodecParameters)
    (opusNew : Nat → OpusChannels → Except OpusError OpusDecoder)
    (cnt : Nat) (ch : OpusChannels) (e : OpusError)
    (hc : params.channels = some cnt)
    (ht : translate_channels cnt = some ch)
    (he : opusNew (try_new_rate_arg params) ch = Except.error e) :
    SymphoniaDecoderLibOpus.try_new params opusNew = Outcome.panicked := by
  unfold SymphoniaDecoderLibOpus.try_new
  rw [hc]
  dsimp only
  rw [ht]
  dsimp only
  rw [he]

/-- Claim C4 (amended), witness at stereo parameters with a failing
external allocator. -/
theorem try_new_alloc_failure_panicks_witness :
    (({ sample_rate := some 48000, channels := some 2 }
        : CodecParameters).channels = some 2
      ∧ translate_channels 2 = some OpusChannels.stereo
      ∧ (fun _ _ => (Except.error OpusError.allocFail
            : Except OpusError OpusDecoder))
          (try_new_rate_arg { sample_rate := some 48000, channels := some 2 })
          OpusChannels.stereo
        = Except.error OpusError.allocFail)
    ∧ SymphoniaDecoderLibOpus.try_new
        { sample_rate := some 48000, channels := some 2 }
        (fun _ _ => Except.error OpusError.allocFail)
      = Outcome.panicked :=
  ⟨⟨rfl, rfl, rfl⟩,
    try_new_alloc_failure_panicks _ _ 2 OpusChannels.stereo
      OpusError.allocFail rfl rfl rfl⟩

/-- Claim C6, counterexample: with the channel layout absent, try_new
panics — it neither returns an error nor succeeds. -/
theorem try_new_missing_channels_cex :
    SymphoniaDecoderLibOpus.try_new
        { sample_rate := some 48000, channels := none } opus_Decoder_new
      = Outcome.panicked
    ∧ (∀ e, SymphoniaDecoderLibOpus.try_new
        { sample_rate := some 48000, channels := none } opus_Decoder_new
      ≠ Outcome.err e)
    ∧ (∀ st, SymphoniaDecoderLibOpus.try_new
        { sample_rate := some 48000, channels := none } opus_Decoder_new
      ≠ Outcome.ok st) :=
  ⟨rfl, fun _ h => Outcome.noConfusion h, fun _ h => Outcome.noConfusion h⟩

/-- Claim C6 (amended): if the stream parameters lack a channel layout,
construction panics (the source unwraps the absent layout) rather than
returning a construction-time error or succeeding. -/
theorem try_new_missing_channels_panicks (params : CodecParameters)
    (opusNew : Nat → OpusChannels → Except OpusError OpusDecoder)
    (hc : params.channels = none) :
    SymphoniaDecoderLibOpus.try_new params opusNew = Outcome.panicked := by
  unfold SymphoniaDecoderLibOpus.try_new
  rw [hc]

/-- Claim C6 (amended), witness at parameters with no channel layout. -/
theorem try_new_missing_channels_panicks_witness :
    (({ sample_rate := some 48000, channels := none }
        : CodecParameters).channels = none)
    ∧ SymphoniaDecoderLibOpus.try_new
        { sample_rate := some 48000, channels := none } opus_Decoder_new
      = Outcome.panicked :=
  ⟨rfl, try_new_missing_channels_panicks _ opus_Decoder_new rfl⟩

/-- Claim C5: for any stream parameters whose channel count is neither 1
nor 2, try_new fails with the unsupported-configuration error, and it
does so identically for every behaviour of the external allocator — the
external constructor is never consulted and no buffer is built, so no
external resource is allocated before the failure. -/
theorem try_new_bad_channel_count (params : CodecParameters)
    (opusNew : Nat → OpusChannels → Except OpusError OpusDecoder)
    (c : Nat) (hc : params.channels = some c) (h1 : c ≠ 1) (h2 : c ≠ 2) :
    SymphoniaDecoderLibOpus.try_new params opusNew
      = Outcome.err (SymphoniaError.Unsupported "unsupported channel count") := by
  unfold SymphoniaDecoderLibOpus.try_new
  rw [hc]
  dsimp only
  rw [translate_channels_eq_none c h1 h2]

/-- Claim C5, witness at six channels. -/
theorem try_new_bad_channel_count_witness :
    (({ sample_rate := some 48000, channels := some 6 }
        : CodecParameters).channels = some 6
      ∧ (6 : Nat) ≠ 1 ∧ (6 : Nat) ≠ 2)
    ∧ SymphoniaDecoderLibOpus.try_new
        { sample_rate := some 48000, channels := some 6 } opus_Decoder_new
      = Outcome.err (SymphoniaError.Unsupported "unsupported channel count") :=
  ⟨⟨rfl, by decide, by decide⟩,
    try_new_bad_channel_count _ opus_Decoder_new 6 rfl
      (by decide) (by decide)⟩

/-- Claim C7: a reset that returns leaves the adapter state — and hence
the buffer reported by last_decoded — exactly as it was; reset touches
only the external decoder's internal state. -/
theorem reset_preserves_last_decoded (st st' : SymphoniaDecoderLibOpus)
    (ext : Except OpusError Unit)
    (h : st.reset ext = Outcome.ok st') :
    st'.last_decoded = st.last_decoded := by
  cases ext with
  | error e => exact Outcome.noConfusion h
  | ok u =>
    have h' : Outcome.ok st = Outcome.ok st' := h
    injection h' with h2
    rw [h2]

/-- Claim C7, witness: resetting the freshly constructed stereo state. -/
theorem reset_preserves_last_decoded_witness :
    (exampleState.reset (Except.ok ()) = Outcome.ok exampleState)
    ∧ exampleState.last_decoded = exampleState.last_decoded :=
  ⟨rfl, reset_preserves_last_decoded exampleState exampleState
    (Except.ok ()) rfl⟩

/-- Claim C8: after a successful construction and before any decode call,
last_decoded returns a valid planar buffer whose length is zero frames;
by its type it is total, so no failure or error is possible. -/
theorem last_decoded_initial_empty (params : CodecParameters)
    (opusNew : Nat → OpusChannels → Except OpusError OpusDecoder)
    (st : SymphoniaDecoderLibOpus)
    (h : SymphoniaDecoderLibOpus.try_new params opusNew = Outcome.ok st) :
    (st.last_decoded).frames = 0
    ∧ ∀ p ∈ (st.last_decoded).planes, p = [] := by
  obtain ⟨cnt, _, hb, _, _⟩ := try_new_ok_shape params opusNew st h
  constructor
  · show st.decoded_buffer.frames = 0
    rw [hb]
    rfl
  · intro p hp
    have hp' : p ∈ (st.decoded_buffer).planes := hp
    rw [hb] at hp'
    have hp2 : p ∈ (List.replicate cnt (List.replicate 5760 (0 : Int))).map
        (fun q => q.take 0) := hp'
    rcases List.mem_map.mp hp2 with ⟨q, _, hq⟩
    rw [← hq]
    rfl

/-- Claim C8, witness: the freshly constructed stereo state. -/
theorem last_decoded_initial_empty_witness :
    (SymphoniaDecoderLibOpus.try_new
        { sample_rate := some 48000, channels := some 2 } opus_Decoder_new
      = Outcome.ok exampleState)
    ∧ ((exampleState.last_decoded).frames = 0
        ∧ ∀ p ∈ (exampleState.last_decoded).planes, p = []) :=
  ⟨rfl, last_decoded_initial_empty
    { sample_rate := some 48000, channels := some 2 } opus_Decoder_new
    exampleState rfl⟩

/-- Claim C3, counterexample: with the sample rate absent, try_new passes
0 — the numeric type's default value — to the external constructor; 0 is
not among the codec's supported rates (the codec defines no such default),
and under the documented libopus contract construction in fact panics. -/
theorem try_new_default_rate_cex :
    try_new_rate_arg { sample_rate := none, channels := some 2 } = 0
    ∧ 0 ∉ opus_supported_sample_rates
    ∧ SymphoniaDecoderLibOpus.try_new
        { sample_rate := none, channels := some 2 } opus_Decoder_new
      = Outcome.panicked :=
  ⟨rfl, by decide, rfl⟩

/-- Claim C3 (amended): when the sample rate is absent, construction
substitutes the numeric type's default value 0 — not a codec-defined
rate — as the external constructor's sample-rate argument; under the
documented libopus contract that argument is rejected and, for any
supported channel count, try_new panics. -/
theorem try_new_absent_rate_zero (params : CodecParameters)
    (h : params.sample_rate = none) :
    try_new_rate_arg params = 0
    ∧ 0 ∉ opus_supported_sample_rates
    ∧ ∀ cnt ch, params.channels = some cnt →
        translate_channels cnt = some ch →
        SymphoniaDecoderLibOpus.try_new params opus_Decoder_new
          = Outcome.panicked := by
  have hr : try_new_rate_arg params = 0 := by
    unfold try_new_rate_arg
    rw [h]
    rfl
  refine ⟨hr, by decide, ?_⟩
  intro cnt ch hc ht
  unfold SymphoniaDecoderLibOpus.try_new
  rw [hc]
  dsimp only
  rw [ht]
  dsimp only
  rw [hr]
  rfl

/-- Claim C3 (amended), witness at stereo parameters with no rate. -/
theorem try_new_absent_rate_zero_witness :
    (({ sample_rate := none, channels := some 2 }
        : CodecParameters).sample_rate = none)
    ∧ (try_new_rate_arg { sample_rate := none, channels := some 2 } = 0
        ∧ 0 ∉ opus_supported_sample_rates
        ∧ ∀ cnt ch, ({ sample_rate := none, channels := some 2 }
              : CodecParameters).channels = some cnt →
            translate_channels cnt = some ch →
            SymphoniaDecoderLibOpus.try_new
              { sample_rate := none, channels := some 2 } opus_Decoder_new
              = Outcome.panicked) :=
  ⟨rfl, try_new_absent_rate_zero _ rfl⟩

/-- Claim C10: a successful construction hard-codes 48000 as the output
buffer's signal-spec rate regardless of the declared stream rate, and
decode preserves the spec; hence every buffer returned by decode or
last_decoded reports rate 48000. -/
theorem output_rate_hardcoded_48000 (params : CodecParameters)
    (opusNew : Nat → OpusChannels → Except OpusError OpusDecoder)
    (st : SymphoniaDecoderLibOpus)
    (h : SymphoniaDecoderLibOpus.try_new params opusNew = Outcome.ok st) :
    (st.last_decoded).rate = 48000
    ∧ ∀ (st0 st1 : SymphoniaDecoderLibOpus)
        (ext : Except OpusError (Nat × List Int)) (buf : AudioBufferRef),
        st0.decode ext = Outcome.ok (st1, buf) →
        buf.rate = st0.decoded_buffer.spec.rate
        ∧ st1.decoded_buffer.spec.rate = st0.decoded_buffer.spec.rate := by
  constructor
  · obtain ⟨cnt, _, hb, _, _⟩ := try_new_ok_shape params opusNew st h
    show st.decoded_buffer.spec.rate = 48000
    rw [hb]
    rfl
  · intro st0 st1 ext buf hd
    cases ext with
    | error e => exact Outcome.noConfusion hd
    | ok pr =>
      obtain ⟨decoded, written⟩ := pr
      unfold SymphoniaDecoderLibOpus.decode at hd
      dsimp only at hd
      cases hrr : (st0.decoded_buffer.clear).render_reserved (some decoded) with
      | none => rw [hrr] at hd; exact Outcome.noConfusion hd
      | some dbuf =>
        rw [hrr] at hd
        dsimp only at hd
        injection hd with h1
        obtain ⟨hspec, -, -⟩ := render_reserved_some_shape _ _ _ hrr
        have hst1 := congrArg Prod.fst h1
        have hbuf := congrArg Prod.snd h1
        dsimp only at hst1 hbuf
        rw [← hst1, ← hbuf]
        exact ⟨congrArg SignalSpec.rate hspec, congrArg SignalSpec.rate hspec⟩

/-- Claim C10, witness: a stream declaring rate 24000 still yields an
output buffer reporting 48000. -/
theorem output_rate_hardcoded_48000_witness :
    (SymphoniaDecoderLibOpus.try_new
        { sample_rate := some 24000, channels := some 2 } opus_Decoder_new
      = Outcome.ok exampleState24)
    ∧ ((exampleState24.last_decoded).rate = 48000
        ∧ ∀ (st0 st1 : SymphoniaDecoderLibOpus)
            (ext : Except OpusError (Nat × List Int)) (buf : AudioBufferRef),
            st0.decode ext = Outcome.ok (st1, buf) →
            buf.rate = st0.decoded_buffer.spec.rate
            ∧ st1.decoded_buffer.spec.rate = st0.decoded_buffer.spec.rate) :=
  ⟨rfl, output_rate_hardcoded_48000
    { sample_rate := some 24000, channels := some 2 } opus_Decoder_new
    exampleState24 rfl⟩

/-- deinterleave keeps the number of storage rows (one per channel). -/
theorem deinterleave_length (scratch : List Int) (channels frames ch0 : Nat)
    (rows : List (List Int)) :
    (deinterleave scratch channels frames ch0 rows).length = rows.length := by
  induction rows generalizing ch0 with
  | nil => rfl
  | cons p rest ih =>
    simpa [deinterleave] using ih (ch0 + 1)

/-- Row c of the deinterleaved storage: the first min frames row-length
samples come from the scratch buffer at stride channels and offset
ch0 + c, the rest of the row is untouched. -/
theorem deinterleave_getD (scratch : List Int) (channels frames ch0 : Nat)
    (rows : List (List Int)) (c : Nat) (hc : c < rows.length) :
    (deinterleave scratch channels frames ch0 rows).getD c []
      = ((List.range (min frames (rows.getD c []).length)).map
          (fun s => scratch.getD (s * channels + (ch0 + c)) 0))
        ++ (rows.getD c []).drop (min frames (rows.getD c []).length) := by
  induction rows generalizing ch0 c with
  | nil => exact absurd hc (by simp)
  | cons p rest ih =>
    cases c with
    | zero => simp [deinterleave]
    | succ c' =>
      have h' := ih (ch0 + 1) c' (by simpa using hc)
      have e1 : ch0 + 1 + c' = ch0 + (c' + 1) := by omega
      have e2 : (deinterleave scratch channels frames ch0
            (p :: rest)).getD (c' + 1) []
          = (deinterleave scratch channels frames (ch0 + 1) rest).getD c' [] :=
        rfl
      rw [e2, h', e1]
      rfl

/-- Computation of decode on a successful external call whose frame count
fits the output buffer's capacity. -/
theorem decode_ok_eq (st : SymphoniaDecoderLibOpus) (decoded : Nat)
    (written : List Int) (h : decoded ≤ st.decoded_buffer.capacity) :
    st.decode (Except.ok (decoded, written))
      = Outcome.ok (decode_success_state st decoded written,
          AudioBufferRef.S16 (decode_success_buffer st decoded written)) := by
  unfold SymphoniaDecoderLibOpus.decode
  dsimp only
  rw [clear_render_reserved st.decoded_buffer decoded h]
  rfl

/-- Claim C1: for a successful decode returning N frames (N ≤ 5760) on a
well-formed adapter state (capacity-5760 output buffer with one
full-capacity storage row per channel, as construction builds), decode
succeeds, the returned buffer is exactly what a subsequent last_decoded
reports, it holds exactly N frames in every plane, and plane c at frame
index s equals the scratch buffer's sample at interleaved position
s * channels + c; the frame count is exactly N, so each decode overwrites
rather than appends to the output buffer. -/
theorem decode_deinterleave_roundtrip (st : SymphoniaDecoderLibOpus)
    (decoded : Nat) (written : List Int)
    (hcap : st.decoded_buffer.capacity = 5760)
    (hn : decoded ≤ 5760)
    (hch : st.decoded_buffer.storage.length = st.channels)
    (hlen : ∀ p ∈ st.decoded_buffer.storage, p.length = 5760) :
    ∃ st' buf,
      st.decode (Except.ok (decoded, written)) = Outcome.ok (st', buf)
      ∧ st'.last_decoded = buf
      ∧ buf.frames = decoded
      ∧ buf.planes.length = st.channels
      ∧ ∀ c, c < st.channels →
          (buf.planes.getD c []).length = decoded
          ∧ ∀ s, s < decoded →
              (buf.planes.getD c []).getD s 0
                = written.getD (s * st.channels + c) 0 := by
  refine ⟨decode_success_state st decoded written,
    AudioBufferRef.S16 (decode_success_buffer st decoded written),
    decode_ok_eq st decoded written (by rw [hcap]; exact hn),
    rfl, rfl, ?_, ?_⟩
  · show ((decode_success_buffer st decoded written).planes).length
      = st.channels
    unfold decode_success_buffer AudioBuffer.planes
    dsimp only
    rw [List.length_map, deinterleave_length, hch]
  · intro c hc
    have hclt : c < st.decoded_buffer.storage.length := by
      rw [hch]; exact hc
    have hmem : st.decoded_buffer.storage.getD c []
        ∈ st.decoded_buffer.storage := by
      rw [List.getD_eq_getElem _ _ hclt]
      exact List.getElem_mem _
    have hrl : (st.decoded_buffer.storage.getD c []).length = 5760 :=
      hlen _ hmem
    have hmin : min decoded (st.decoded_buffer.storage.getD c []).length
        = decoded := by
      rw [hrl]
      exact Nat.min_eq_left hn
    have hdl : c < (deinterleave written st.channels decoded 0
        st.decoded_buffer.storage).length := by
      rw [deinterleave_length]
      exact hclt
    have hplane : ((AudioBufferRef.S16
          (decode_success_buffer st decoded written)).planes).getD c []
        = (List.range decoded).map
            (fun s => written.getD (s * st.channels + c) 0) := by
      show (((deinterleave written st.channels decoded 0
            st.decoded_buffer.storage).map
          (fun p => p.take decoded)).getD c []) = _
      rw [List.getD_eq_getElem _ _ (by rw [List.length_map]; exact hdl)]
      rw [List.getElem_map]
      rw [← List.getD_eq_getElem _ ([] : List Int) hdl]
      rw [deinterleave_getD written st.channels decoded 0 _ c hclt]
      rw [hmin]
      rw [List.take_left' (by simp)]
      simp
    refine ⟨?_, ?_⟩
    · rw [hplane]
      simp
    · intro s hs
      rw [hplane]
      rw [List.getD_eq_getElem _ _ (by simpa using hs)]
      simp

/-- Claim C1, witness: decoding 2 frames of the interleaved scratch
samples 10, 20, 30, 40 on the freshly constructed stereo state gives
planes 10, 30 and 20, 40. -/
theorem decode_deinterleave_roundtrip_witness :
    (exampleState.decoded_buffer.capacity = 5760
      ∧ (2 : Nat) ≤ 5760
      ∧ exampleState.decoded_buffer.storage.length = exampleState.channels
      ∧ ∀ p ∈ exampleState.decoded_buffer.storage, p.length = 5760)
    ∧ (∃ st' buf,
        exampleState.decode (Except.ok (2, [10, 20, 30, 40]))
          = Outcome.ok (st', buf)
        ∧ st'.last_decoded = buf
        ∧ buf.frames = 2
        ∧ buf.planes.length = exampleState.channels
        ∧ ∀ c, c < exampleState.channels →
            (buf.planes.getD c []).length = 2
            ∧ ∀ s, s < 2 →
                (buf.planes.getD c []).getD s 0
                  = [10, 20, 30, 40].getD
                      (s * exampleState.channels + c) 0) :=
  ⟨⟨rfl, by decide, rfl, fun p hp => by
      have hp' : p ∈ List.replicate 2 (List.replicate 5760 (0 : Int)) := hp
      rw [List.eq_of_mem_replicate hp']
      exact List.length_replicate 5760 0⟩,
    decode_deinterleave_roundtrip exampleState 2 [10, 20, 30, 40] rfl
      (by decide) rfl (fun p hp => by
        have hp' : p ∈ List.replicate 2 (List.replicate 5760 (0 : Int)) := hp
        rw [List.eq_of_mem_replicate hp']
        exact List.length_replicate 5760 0)⟩
